import Mathlib

/-!
# Verification of the PixCap icon scraper (Skystapper/icons)

Shallow embedding of the discovery–resolve–download pipeline of the
repository: `index.js` (main scraper with dedup check and in-memory
slug→uuid map), `find-items.js` (combined discovery/download pipeline),
and the unnamed direct-downloader script (per-item mapping-file writer,
`src/unnamed/part_000`).

Pure data such as directory listings, intercepted network responses and
fetch outcomes is passed explicitly; the stateful browser loop becomes
explicit state passing plus an abstract action trace (register listener,
navigate, deregister, fetch).
-/

namespace Icons

/-- The characters remaining after the first occurrence of `pat` in `s`
(`none` when `pat` does not occur). -/
def afterFirstSub (pat : List Char) : List Char → Option (List Char)
  | [] => if pat.isEmpty then some [] else none
  | c :: rest =>
    if pat.isPrefixOf (c :: rest) then some ((c :: rest).drop pat.length)
    else afterFirstSub pat rest

/-- JS `String.prototype.includes`: does `s` contain `pat` as a substring? -/
def containsSub (s pat : String) : Bool :=
  (afterFirstSub pat.data s.data).isSome

/-- JS `String.prototype.startsWith`. -/
def strStartsWith (s pre : String) : Bool :=
  pre.data.isPrefixOf s.data

/-- JS `String.prototype.endsWith`. -/
def strEndsWith (s suf : String) : Bool :=
  suf.data.isSuffixOf s.data

/-- JS truthiness for an optional string field: `undefined`, `null` and the
empty string are falsy. -/
def truthy : Option String → Option String
  | some s => if s.data.isEmpty then none else some s
  | none => none

/-- The characters after the last `/` of the list (JS
`url.split('/').pop()`). -/
def afterLastSlash (l : List Char) : List Char :=
  l.foldl (fun acc c => if c = '/' then [] else acc ++ [c]) []

/-- `url.split('/').pop().split('?')[0]` — the trailing path segment of a URL
with its query string stripped; this is how both scrapers derive the uuid from
the matched response URL. -/
def uuidOfUrl (url : String) : String :=
  String.mk ((afterLastSlash url.data).takeWhile (fun c => c ≠ '?'))

/-- JS `Map.prototype.set` / object property assignment on an association
list (keys are unique by construction): overwrite the value of an existing
key in place, append a new key in insertion order. -/
def mapSet : List (String × String) → String → String → List (String × String)
  | [], k, v => [(k, v)]
  | p :: rest, k, v => if p.1 = k then (k, v) :: rest else p :: mapSet rest k v

/-- Association-list lookup (JS `Map.prototype.get` / object property read). -/
def mapGet : List (String × String) → String → Option String
  | [], _ => none
  | p :: rest, k => if p.1 = k then some p.2 else mapGet rest k

/-- Append each element not already present, preserving first-seen order:
the semantics of `if (!acc.includes(url)) acc.push(url)` and of insertion
into a JS `Set`. -/
def addUnique (acc : List String) : List String → List String
  | [] => acc
  | u :: us => addUnique (if u ∈ acc then acc else acc ++ [u]) us

/-- First-occurrence deduplication, the semantics of the
`.filter((v, i, a) => a.indexOf(v) === i)` idiom and of collecting into a
JS `Set`. -/
def firstDedup (l : List String) : List String :=
  addUnique [] l

/-- The dedup check of `index.js` (both branches):
`filename.startsWith(iconSlug + '__') && filename.endsWith('.glb')` over the
listing of the pack directory. -/
def fileAlreadyExists (slug : String) (dirFiles : List String) : Bool :=
  dirFiles.any (fun f => strStartsWith f (slug ++ "__") && strEndsWith f ".glb")

/-- The fixed resolution-endpoint path pattern both scrapers filter
response URLs by. -/
def endpointPat : String := "/api/v1/assetmanager/presigned/loadProject/"

/-- `response.url().includes('/api/v1/assetmanager/presigned/loadProject/')`. -/
def matchesEndpoint (url : String) : Bool :=
  containsSub url endpointPat

/-- The parsed JSON body of an intercepted response.  `presignedUrl` and
`contentType` are the two fields the scrapers read; a missing field is
`none`. -/
structure RespBody where
  presignedUrl : Option String
  contentType : Option String
  deriving DecidableEq, Repr

/-- One intercepted network response: its URL and its body
(`none` models `response.json()` throwing / a non-JSON body). -/
structure NetResponse where
  url : String
  body : Option RespBody
  deriving DecidableEq, Repr

/-- Abstract observable actions of one item-resolution step. -/
inductive Action where
  /-- `page.on('response', handler)` -/
  | register
  /-- `page.goto('https://pixcap.com/design/create?slug=...')` -/
  | navigate
  /-- `page.off` / `page.removeListener('response', handler)` -/
  | deregister
  /-- the binary `axios` fetch of a captured presigned URL -/
  | fetchBin
  deriving DecidableEq, Repr

/-- `true` iff the trace's first `register` strictly precedes its first
`navigate` (vacuously `true` when the trace contains no `navigate`). -/
def regBeforeNav (tr : List Action) : Bool :=
  match tr.findIdx? (· == Action.navigate) with
  | none => true
  | some n =>
    match tr.findIdx? (· == Action.register) with
    | none => false
    | some r => decide (r < n)

end Icons

namespace IndexJs

open Icons

/-- Mutable state of an `index.js` run that the per-icon step touches:
the in-memory `slugToUuidMap`, the files written so far (as
`(directory, filename)` pairs), and the presigned URLs for which a binary
fetch has been issued (successful or not). -/
structure St where
  mapping : List (String × String)
  written : List (String × String)
  fetches : List String
  deriving DecidableEq, Repr

/-- The `responseHandler` closure of `index.js` (both pack branches are
verbatim identical), processing one intercepted response against the
current state.  On a URL matching the endpoint pattern with a parseable
body whose `presignedUrl` is truthy it (1) records
`slugToUuidMap.set(iconSlug, iconUuid)` and then (2) attempts the binary
fetch; only a successful fetch appends the file
`<iconSlug>__<iconUuid>.glb` in `packDir`. -/
def responseHandler (iconSlug packDir : String) (fetchOk : String → Bool)
    (st : St) (r : NetResponse) : St :=
  if matchesEndpoint r.url then
    match r.body with
    | none => st
    | some b =>
      match truthy b.presignedUrl with
      | none => st
      | some u =>
        let uuid := uuidOfUrl r.url
        let st1 : St := { st with
          mapping := mapSet st.mapping iconSlug uuid
          fetches := st.fetches ++ [u] }
        if fetchOk u then
          { st1 with written := st1.written ++ [(packDir, iconSlug ++ "__" ++ uuid ++ ".glb")] }
        else st1
  else st

/-- Environment of one per-icon step: whether `page.goto` + the 5s wait
complete without throwing, the responses intercepted while the listener is
live, and the outcome of the binary fetch per presigned URL. -/
structure IconEnv where
  navOk : Bool
  responses : List NetResponse
  fetchOk : String → Bool

/-- Result of one per-icon step. -/
structure IconResult where
  /-- observable actions, in order -/
  actions : List Action
  st : St
  /-- was `page.removeListener('response', responseHandler)` reached? -/
  listenerRemoved : Bool
  /-- did the dedup check fire (`continue` before any listener/navigation)? -/
  skipped : Bool

/-- The per-icon body of `index.js`'s inner loop (identical in the
hardcoded-packs and found-packs branches): dedup check first — if a file
`<slug>__*.glb` already exists in `packDir` the icon is skipped outright;
otherwise register the response listener, navigate to the
`design/create?slug=` trigger and wait.  Responses intercepted while the
listener is live are folded through `responseHandler` (they fire even when
the navigation later times out).  `page.removeListener` runs only on the
non-throwing path: a `goto`/wait exception jumps to the per-icon `catch`,
which logs and leaves the listener registered. -/
def processIcon (iconSlug packDir : String) (dirFiles : List String)
    (env : IconEnv) (st : St) : IconResult :=
  if fileAlreadyExists iconSlug dirFiles then
    { actions := [], st := st, listenerRemoved := true, skipped := true }
  else
    let st' := env.responses.foldl (responseHandler iconSlug packDir env.fetchOk) st
    if env.navOk then
      { actions := [Action.register, Action.navigate, Action.deregister]
        st := st', listenerRemoved := true, skipped := false }
    else
      { actions := [Action.register, Action.navigate]
        st := st', listenerRemoved := false, skipped := false }

/-- One icon of an `index.js` run: the slug, its pack directory, the
directory listing at dedup-check time, and the step's environment. -/
structure RunItem where
  slug : String
  packDir : String
  dirFiles : List String
  env : IconEnv

/-- State after processing a list of icons sequentially. -/
def runSt (items : List RunItem) (st : St) : St :=
  items.foldl (fun s it => (processIcon it.slug it.packDir it.dirFiles it.env s).st) st

/-- Externally visible persistence events of an `index.js` run. -/
inductive Event where
  /-- a `.glb` file write (`fs.writeFile(outputPath, ...)`) -/
  | fileWrite (dir fname : String)
  /-- a write of the on-disk mapping file `slug-uuid-mapping.json` -/
  | diskMapWrite (m : List (String × String))
  deriving DecidableEq, Repr

/-- Is an event a write of the on-disk mapping file? -/
def Event.isDiskMapWrite : Event → Bool
  | .diskMapWrite _ => true
  | _ => false

/-- The persistence events of one per-icon step: exactly the `.glb` files it
appends to the written set.  `index.js` performs no mapping-file write inside
the loop. -/
def itemEvents (it : RunItem) (st : St) : List Event :=
  let st' := (processIcon it.slug it.packDir it.dirFiles it.env st).st
  (st'.written.drop st.written.length).map (fun p => Event.fileWrite p.1 p.2)

/-- The persistence events of a whole `index.js` run: the per-icon file
writes in loop order, followed by the single write of
`slug-uuid-mapping.json` (`fs.writeFile(mappingPath, ...)` after the loop,
lines 419–425). -/
def runEvents : List RunItem → St → List Event
  | [], st => [Event.diskMapWrite st.mapping]
  | it :: rest, st =>
    itemEvents it st ++ runEvents rest (processIcon it.slug it.packDir it.dirFiles it.env st).st

/-- How many icons of a run leave their response listener registered behind
(listener registered, step ended by a thrown navigation/wait error, so
`page.removeListener` was never reached). -/
def runLeakedListeners (items : List RunItem) (st : St) : Nat :=
  (items.foldl
    (fun acc it =>
      let res := processIcon it.slug it.packDir it.dirFiles it.env acc.2
      (acc.1 + (if res.listenerRemoved then 0 else 1), res.st))
    ((0 : Nat), st)).1

end IndexJs

namespace Extract

open Icons

/-- An image element, with its `src` and `alt` attributes (absent attribute
modelled as the empty string, matching `getAttribute(..) || ''`). -/
structure Img where
  src : String
  alt : String
  deriving DecidableEq, Repr

/-- The regex capture of `/slug=([^&]+)/` applied to an href: the nonempty
run of non-`&` characters after the first `slug=`. -/
def slugParam? (href : String) : Option String :=
  match afterFirstSub "slug=".data href.data with
  | none => none
  | some rest =>
    let v := rest.takeWhile (fun c => c != '&')
    if v.isEmpty then none else some (String.mk v)

/-- Is a character in the class `[a-z0-9-]` of the alt-text regex? -/
def isAltClass (c : Char) : Bool :=
  (decide ('a' ≤ c) && decide (c ≤ 'z')) ||
  (decide ('0' ≤ c) && decide (c ≤ '9')) || c == '-'

/-- Greedy capture for `\/([^\/]+)-3d-icon` once a `/` has been consumed:
the longest nonempty `/`-free prefix of `rest` followed immediately by
`-3d-icon`. -/
def srcGreedy (rest : List Char) : Option (List Char) :=
  let run := rest.takeWhile (fun c => c != '/')
  ((List.range run.length).reverse.filterMap (fun k =>
    if "-3d-icon".data.isPrefixOf (rest.drop (k + 1)) then some (run.take (k + 1))
    else none)).head?

/-- Leftmost match of the regex `\/([^\/]+)-3d-icon`; returns the capture. -/
def srcMatch : List Char → Option (List Char)
  | [] => none
  | c :: rest =>
    if c = '/' then
      match srcGreedy rest with
      | some cap => some cap
      | none => srcMatch rest
    else srcMatch rest

/-- Greedy capture for `([a-z0-9-]+)-3d-icon` at the current position:
the longest nonempty class-character prefix of `s` followed immediately by
`-3d-icon`. -/
def altGreedy (s : List Char) : Option (List Char) :=
  let run := s.takeWhile isAltClass
  ((List.range run.length).reverse.filterMap (fun k =>
    if "-3d-icon".data.isPrefixOf (s.drop (k + 1)) then some (run.take (k + 1))
    else none)).head?

/-- Leftmost match of the regex `([a-z0-9-]+)-3d-icon`; returns the capture. -/
def altMatch : List Char → Option (List Char)
  | [] => none
  | c :: rest =>
    if isAltClass c then
      match altGreedy (c :: rest) with
      | some cap => some cap
      | none => altMatch rest
    else altMatch rest

/-- An image qualifies for the scan only when it matched the selector
`img[src*="icon"], img[alt*="icon"]`. -/
def imgCandidate (i : Img) : Bool :=
  containsSub i.src "icon" || containsSub i.alt "icon"

/-- `(srcMatch && srcMatch[1]) || (altMatch && altMatch[1]) || null` for one
image: the src regex capture, else the alt regex capture. -/
def imgSlug? (i : Img) : Option String :=
  match srcMatch i.src.data with
  | some cap => some (String.mk cap)
  | none => (altMatch i.alt.data).map String.mk

/-- The image-scan layer of `index.js` lines 180–191: map the qualifying
images through the slug regexes and drop the misses (`filter(Boolean)`). -/
def imageLayer (imgs : List Img) : List String :=
  (imgs.filter imgCandidate).filterMap imgSlug?

/-- A card element carrying `data-slug` / `data-icon-slug` attributes. -/
structure DataCard where
  dataSlug : Option String
  dataIconSlug : Option String
  deriving DecidableEq, Repr

/-- `card.getAttribute('data-slug') || card.getAttribute('data-icon-slug')`,
with JS falsiness (missing attribute and empty string are both falsy),
followed by `filter(Boolean)`. -/
def cardSlug? (c : DataCard) : Option String :=
  match truthy c.dataSlug with
  | some s => some s
  | none => truthy c.dataIconSlug

/-- The pack page as seen by the found-packs branch of `index.js`
(lines 296–334): the slugs parsed out of the `window.__NUXT__` state blob
(`none` models a missing blob or an `eval` throw), the hrefs of anchors
matching `a[href*="design/create?slug="]`, and the page's images (present
in the DOM, never consulted by this branch). -/
structure PackPageA where
  nuxtItems : Option (List String)
  createAnchorHrefs : List String
  imgs : List Img
  deriving Repr

/-- Item-level slug extraction of the found-packs branch (`index.js`
lines 296–334): the blob result, with a single fallback to the
`design/create?slug=` anchors when it is empty.  There is no image layer in
this branch. -/
def extractIconSlugsA (p : PackPageA) : List String :=
  let iconData := (p.nuxtItems.getD [])
  if iconData.isEmpty then p.createAnchorHrefs.filterMap slugParam?
  else iconData

/-- The pack page as seen by the hardcoded-packs branch of `index.js`
(lines 160–192): `design/create?slug=` anchor hrefs, elements matching
`[data-slug], [data-icon-slug]`, and the page's images. -/
structure PackPageB where
  createAnchorHrefs : List String
  dataCards : List DataCard
  imgs : List Img
  deriving Repr

/-- Item-level slug extraction of the hardcoded-packs branch (`index.js`
lines 160–192): `design/create?slug=` anchors; if no such *element* exists,
the `data-slug`/`data-icon-slug` cards; if no such element either, the image
scan.  There is no state-blob layer in this branch. -/
def extractIconSlugsB (p : PackPageB) : List String :=
  if !p.createAnchorHrefs.isEmpty then p.createAnchorHrefs.filterMap slugParam?
  else if !p.dataCards.isEmpty then p.dataCards.filterMap cardSlug?
  else imageLayer p.imgs

/-- Modelled from the spec (claim C8's wording): a single three-layer
fallback — the embedded state blob; only if it yields nothing, the `slug=`
anchors; only if that also yields nothing, the image `src`/`alt` scan.  This
is the extractor the claim asserts; it is to be compared with
`extractIconSlugsA`/`extractIconSlugsB`, which are the two extractors the
code actually contains. -/
def layeredExtractClaim (p : PackPageA) : List String :=
  let blob := (p.nuxtItems.getD [])
  if !blob.isEmpty then blob
  else
    let anchors := p.createAnchorHrefs.filterMap slugParam?
    if !anchors.isEmpty then anchors
    else imageLayer p.imgs

end Extract

namespace FindItems

open Icons

/-- `new URL(u).pathname` for an `http(s)` URL: the part after the host, up
to the query string or fragment (empty path normalises to `/`).  For a
string that is not an absolute `http(s)` URL the `URL` constructor throws
and the code's `catch` returns the string unchanged. -/
def pathnameOf (u : String) : String :=
  if strStartsWith u "https://" ∨ strStartsWith u "http://" then
    let rest := if strStartsWith u "https://" then u.data.drop 8 else u.data.drop 7
    let afterHost := rest.dropWhile (fun c => c != '/')
    let p := afterHost.takeWhile (fun c => !(c == '?' || c == '#'))
    if p.isEmpty then "/" else String.mk p
  else u

/-- `getPackUrls` (`find-items.js` lines 89–101): map every
`a[href^="/pack/"]` href to its pathname (href unchanged if the URL
constructor throws), keeping only first occurrences. -/
def getPackUrls (hrefs : List String) : List String :=
  firstDedup (hrefs.map pathnameOf)

/-- An anchor element; `href` is `none` for elements without an href. -/
structure Anchor where
  href : Option String
  deriving DecidableEq, Repr

/-- `scanForItemLinks` (`find-items.js` lines 282–288): keep the hrefs that
contain `/item/`. -/
def scanForItemLinks (els : List Anchor) : List String :=
  els.filterMap (fun e =>
    match e.href with
    | some h => if containsSub h "/item/" then some h else none
    | none => none)

/-- The pack page as seen by `getItemUrls`: the element lists each of the
four strategies queries, in document order. -/
structure ItemDom where
  /-- strategy 1: `a[href*="/item/"]` -/
  itemAnchors : List Anchor
  /-- strategy 2: anchors inside `[data-v-24e913ac]` components -/
  componentAnchors : List Anchor
  /-- strategy 3: anchors inside card/thumbnail-class elements -/
  cardAnchors : List Anchor
  /-- strategy 4: `.library--info-tag, [class*="library"]` elements -/
  libraryTags : List Anchor
  deriving Repr

/-- `getItemUrls` (`find-items.js` lines 276–319): the four strategies'
hrefs are unioned into one `Set` in strategy order (first occurrence wins),
then each is normalised to its pathname. -/
def getItemUrls (d : ItemDom) : List String :=
  (firstDedup
    (scanForItemLinks d.itemAnchors ++ scanForItemLinks d.componentAnchors ++
      scanForItemLinks d.cardAnchors ++ scanForItemLinks d.libraryTags)).map pathnameOf

/-- One pagination step of the crawl loop (`find-items.js` lines 111–165):
whether an enabled next control was found, whether clicking it succeeded,
whether the navigation wait settled without error, and the pack URLs
extracted from the page it leads to (already pathname-normalised and
page-locally deduplicated by `getPackUrls`). -/
structure PageStep where
  hasNext : Bool
  clickOk : Bool
  navOk : Bool
  urls : List String
  deriving Repr

/-- The pagination loop: starting from the URLs already collected, keep
taking steps while the next control is enabled, the click succeeds and the
navigation settles; stop — keeping the accumulated URLs — the first time any
of the three fails. -/
def crawl (acc : List String) : List PageStep → List String
  | [] => acc
  | s :: rest =>
    if s.hasNext && s.clickOk && s.navOk then crawl (addUnique acc s.urls) rest
    else acc

/-- `handleResponse` (`find-items.js` lines 187–199): on a response whose
URL matches the endpoint pattern, whose body parses, whose `presignedUrl` is
truthy and whose `contentType` is exactly `model/gltf-binary`, capture the
presigned URL (later captures overwrite earlier ones); otherwise leave the
captured value unchanged. -/
def handleResponse (captured : Option String) (r : NetResponse) : Option String :=
  if matchesEndpoint r.url then
    match r.body with
    | some b =>
      match truthy b.presignedUrl with
      | some u => if b.contentType == some "model/gltf-binary" then some u else captured
      | none => captured
    | none => captured
  else captured

/-- Environment of one `downloadGlbFile` call in `find-items.js`: whether
`page.goto` and the subsequent `page.waitForNavigation` settle without
throwing, the responses intercepted while the listener is live, and the
binary-fetch outcome per URL. -/
structure Env where
  navOk : Bool
  nav2Ok : Bool
  responses : List NetResponse
  fetchOk : String → Bool

/-- Result of one `downloadGlbFile` call in `find-items.js`. -/
structure Result where
  actions : List Action
  success : Bool
  /-- filenames written inside the pack folder -/
  written : List String
  listenerRemoved : Bool

/-- `downloadGlbFile` (`find-items.js` lines 175–239).  Note there is no
existing-file check: `dirFiles`, the pack folder's listing, is never
consulted.  The listener is registered, the `design/create?slug=` navigation
is triggered, then the redirect and a 5s pause are awaited; a throw in
either wait jumps to the `catch`, which returns `false` without removing the
listener.  On the non-throwing path the listener is removed and, if a
presigned URL was captured, the binary is fetched and written as
`<itemSlug>.glb` (no uuid in the name). -/
def downloadGlbFile (itemSlug : String) (dirFiles : List String) (env : Env) : Result :=
  if !env.navOk || !env.nav2Ok then
    { actions := [Action.register, Action.navigate], success := false
      written := [], listenerRemoved := false }
  else
    match env.responses.foldl handleResponse none with
    | some u =>
      if env.fetchOk u then
        { actions := [Action.register, Action.navigate, Action.deregister, Action.fetchBin]
          success := true, written := [itemSlug ++ ".glb"], listenerRemoved := true }
      else
        { actions := [Action.register, Action.navigate, Action.deregister, Action.fetchBin]
          success := false, written := [], listenerRemoved := true }
    | none =>
      { actions := [Action.register, Action.navigate, Action.deregister]
        success := false, written := [], listenerRemoved := true }

end FindItems

namespace Part000

open Icons

/-- The on-disk state of the mapping file of the unnamed direct-downloader
script (`item-mappings.json`). -/
inductive MapFile where
  | missing
  | corrupt
  | good (m : List (String × String))
  deriving DecidableEq, Repr

/-- Reading the mapping file (`part_000` lines 429–439): a missing file
leaves the fresh empty object, a corrupt one logs and also leaves the empty
object, a good one yields its parsed contents. -/
def readMappings : MapFile → List (String × String)
  | .missing => []
  | .corrupt => []
  | .good m => m

/-- The on-disk state the store step touches: the filenames in `OUTPUT_DIR`
and the mapping file. -/
structure Disk where
  files : List String
  mapFile : MapFile
  deriving DecidableEq, Repr

/-- `downloadGlbFile` of `src/unnamed/part_000` (lines 412–450): fetch the
presigned URL — a throw is caught and leaves the disk untouched; on success
write `<itemSlug>__<itemUuid>.glb`, re-read the mapping file, add
`itemSlug → itemUuid` and write the updated mapping file back, all within
the same call. -/
def downloadGlbFile (itemSlug itemUuid : String) (fetchOk : Bool)
    (disk : Disk) : Disk :=
  if fetchOk then
    { files := disk.files ++ [itemSlug ++ "__" ++ itemUuid ++ ".glb"]
      mapFile := .good (mapSet (readMappings disk.mapFile) itemSlug itemUuid) }
  else disk

end Part000

section Scratch

open Icons

example : uuidOfUrl "https://pixcap.com/api/v1/assetmanager/presigned/loadProject/abc123?lang=en" = "abc123" := by decide

example : fileAlreadyExists "foo" ["foo__abc123.glb"] = true := by decide
example : fileAlreadyExists "foo" ["foo.glb"] = false := by decide
example : matchesEndpoint "https://pixcap.com/api/v1/assetmanager/presigned/loadProject/abc123?lang=en" = true := by decide

example : FindItems.pathnameOf "https://pixcap.com/item/rocket?x=1" = "/item/rocket" := by decide
example : FindItems.pathnameOf "/item/rocket" = "/item/rocket" := by decide
example : FindItems.pathnameOf "https://pixcap.com" = "/" := by decide
example : firstDedup ["a", "b", "a", "c", "b"] = ["a", "b", "c"] := by decide

example : Extract.slugParam? "/design/create?slug=rocket-3d-icon&lang=en" = some "rocket-3d-icon" := by decide
example : Extract.slugParam? "/design/create" = none := by decide
example : Extract.imgSlug? { src := "/rocket-3d-icon.png", alt := "" } = some "rocket" := by decide
example : Extract.imgSlug? { src := "x.png", alt := "rocket-3d-icon" } = some "rocket" := by decide
example : Extract.imageLayer [{ src := "/rocket-3d-icon.png", alt := "" }] = ["rocket"] := by decide

example :
    FindItems.handleResponse none
      { url := "https://pixcap.com/api/v1/assetmanager/presigned/loadProject/abc?lang=en"
        body := some { presignedUrl := some "https://cdn.example/x", contentType := some "model/gltf-binary" } } =
    some "https://cdn.example/x" := by decide

example :
    FindItems.handleResponse none
      { url := "https://pixcap.com/api/v1/assetmanager/presigned/loadProject/abc?lang=en"
        body := some { presignedUrl := some "https://cdn.example/x", contentType := some "application/json" } } =
    none := by decide

example :
    (IndexJs.responseHandler "foo" "packA" (fun _ => true) { mapping := [], written := [], fetches := [] }
      { url := "https://pixcap.com/api/v1/assetmanager/presigned/loadProject/abc123?lang=en"
        body := some { presignedUrl := some "https://cdn.example/x", contentType := some "model/gltf-binary" } }).written =
    [("packA", "foo__abc123.glb")] := by decide

end Scratch

namespace Icons

theorem mem_addUnique (a : String) : ∀ (l acc : List String), a ∈ addUnique acc l ↔ a ∈ acc ∨ a ∈ l
  | [], acc => by simp [addUnique]
  | u :: us, acc => by
    rw [addUnique, mem_addUnique a us]
    by_cases h : u ∈ acc
    · simp only [if_pos h, List.mem_cons]
      constructor
      · rintro (h1 | h1)
        · exact Or.inl h1
        · exact Or.inr (Or.inr h1)
      · rintro (h1 | rfl | h1)
        · exact Or.inl h1
        · exact Or.inl h
        · exact Or.inr h1
    · simp only [if_neg h, List.mem_append, List.mem_singleton, List.mem_cons]
      tauto

theorem nodup_addUnique : ∀ (l acc : List String), acc.Nodup → (addUnique acc l).Nodup
  | [], _, h => h
  | u :: us, acc, h => by
    rw [addUnique]
    refine nodup_addUnique us _ ?_
    by_cases hu : u ∈ acc
    · simpa [if_pos hu] using h
    · rw [if_neg hu, List.nodup_append]
      exact ⟨h, List.nodup_singleton u, by simpa [List.disjoint_singleton] using hu⟩

theorem prefix_addUnique : ∀ (l acc : List String), acc <+: addUnique acc l
  | [], acc => List.prefix_refl acc
  | u :: us, acc => by
    rw [addUnique]
    refine List.IsPrefix.trans ?_ (prefix_addUnique us _)
    by_cases hu : u ∈ acc
    · rw [if_pos hu]
    · rw [if_neg hu]
      exact ⟨[u], rfl⟩

theorem addUnique_append : ∀ (l₁ l₂ acc : List String),
    addUnique acc (l₁ ++ l₂) = addUnique (addUnique acc l₁) l₂
  | [], l₂, acc => by simp [addUnique]
  | u :: us, l₂, acc => by
    simp only [List.cons_append, addUnique]
    exact addUnique_append us l₂ _

theorem mapGet_mapSet_self : ∀ (m : List (String × String)) (k v : String),
    mapGet (mapSet m k v) k = some v
  | [], k, v => by simp [mapSet, mapGet]
  | p :: rest, k, v => by
    rw [mapSet]
    by_cases h : p.1 = k
    · simp [h, mapGet]
    · simp [h, mapGet, mapGet_mapSet_self rest k v]

theorem mapGet_mapSet_ne : ∀ (m : List (String × String)) (k v k' : String), k' ≠ k →
    mapGet (mapSet m k v) k' = mapGet m k'
  | [], k, v, k', h => by
    have h' : ¬k = k' := fun e => h e.symm
    simp [mapSet, mapGet, h']
  | p :: rest, k, v, k', h => by
    rw [mapSet]
    by_cases hp : p.1 = k
    · rw [if_pos hp, mapGet, mapGet, if_neg (fun e => h e.symm), if_neg (by rw [hp]; exact fun e => h e.symm)]
    · rw [if_neg hp, mapGet, mapGet]
      by_cases hp' : p.1 = k'
      · rw [if_pos hp', if_pos hp']
      · rw [if_neg hp', if_neg hp', mapGet_mapSet_ne rest k v k' h]

theorem mem_firstDedup (a : String) (l : List String) : a ∈ firstDedup l ↔ a ∈ l := by
  simp [firstDedup, mem_addUnique]

theorem isEmpty_eq_false {α : Type} (l : List α) (h : l ≠ []) : l.isEmpty = false := by
  cases l with
  | nil => exact absurd rfl h
  | cons a t => rfl

theorem toFinset_firstDedup (l : List String) : (firstDedup l).toFinset = l.toFinset := by
  ext a
  simp [List.mem_toFinset, mem_firstDedup]

theorem nodup_firstDedup (l : List String) : (firstDedup l).Nodup :=
  nodup_addUnique l [] List.nodup_nil

end Icons

namespace FindItems

open Icons

theorem nodup_crawl : ∀ (steps : List PageStep) (acc : List String),
    acc.Nodup → (crawl acc steps).Nodup
  | [], _, h => h
  | s :: rest, acc, h => by
    rw [crawl]
    by_cases hs : (s.hasNext && s.clickOk && s.navOk) = true
    · rw [if_pos hs]
      exact nodup_crawl rest _ (nodup_addUnique _ _ h)
    · rw [if_neg hs]
      exact h

theorem prefix_crawl : ∀ (steps : List PageStep) (acc : List String),
    acc <+: crawl acc steps
  | [], acc => List.prefix_refl acc
  | s :: rest, acc => by
    rw [crawl]
    by_cases hs : (s.hasNext && s.clickOk && s.navOk) = true
    · rw [if_pos hs]
      exact (prefix_addUnique s.urls acc).trans (prefix_crawl rest _)
    · rw [if_neg hs]

/-- Does a response fail the `contentType === 'model/gltf-binary'` test
(or have no parseable body at all)? -/
def notGltf (r : NetResponse) : Bool :=
  match r.body with
  | some b => b.contentType != some "model/gltf-binary"
  | none => true

/-- A response whose body is missing or whose `contentType` is not
`model/gltf-binary` never changes the captured presigned URL. -/
theorem handleResponse_no_gltf (st : Option String) (r : NetResponse)
    (h : notGltf r = true) : handleResponse st r = st := by
  obtain ⟨url, body⟩ := r
  cases body with
  | none => simp [handleResponse]
  | some b =>
    have hne : b.contentType ≠ some "model/gltf-binary" := by
      simpa [notGltf] using h
    cases htr : truthy b.presignedUrl with
    | none => simp [handleResponse, htr]
    | some u => simp [handleResponse, htr, hne]

theorem foldl_handleResponse_no_gltf : ∀ (rs : List NetResponse) (st : Option String),
    rs.all notGltf = true → rs.foldl handleResponse st = st
  | [], _, _ => rfl
  | r :: rest, st, h => by
    rw [List.all_cons, Bool.and_eq_true] at h
    rw [List.foldl_cons, handleResponse_no_gltf st r h.1,
      foldl_handleResponse_no_gltf rest st h.2]

end FindItems

namespace IndexJs

open Icons

/-- Every persistence event of one per-icon step is a file write. -/
theorem itemEvents_no_diskMapWrite (it : RunItem) (st : St) :
    (itemEvents it st).all (fun e => !e.isDiskMapWrite) = true := by
  rw [itemEvents, List.all_eq_true]
  intro e he
  simp only [List.mem_map] at he
  obtain ⟨p, _, rfl⟩ := he
  rfl

/-- The events of an `index.js` run are the loop's file writes followed by a
single final write of the mapping file, holding the end-of-run mapping. -/
theorem runEvents_structure : ∀ (items : List RunItem) (st : St),
    ∃ pre, runEvents items st = pre ++ [Event.diskMapWrite (runSt items st).mapping] ∧
      pre.all (fun e => !e.isDiskMapWrite) = true
  | [], st => ⟨[], by simp [runEvents, runSt]⟩
  | it :: rest, st => by
    obtain ⟨pre, hpre, hall⟩ :=
      runEvents_structure rest (processIcon it.slug it.packDir it.dirFiles it.env st).st
    have hst : runSt (it :: rest) st =
        runSt rest (processIcon it.slug it.packDir it.dirFiles it.env st).st := by
      simp [runSt]
    refine ⟨itemEvents it st ++ pre, ?_, ?_⟩
    · rw [runEvents, hpre, hst, List.append_assoc]
    · rw [List.all_append, hall, itemEvents_no_diskMapWrite, Bool.and_self]

end IndexJs

open Icons

/-- C1 counterexample: the claim fails on the combined discovery–download
pipeline.  `find-items.js`'s `downloadGlbFile` performs no dedup check: with
`foo__abc123.glb` already present in the destination directory, processing
slug `foo` still registers a response listener and navigates, instead of
skipping. -/
theorem C1_counterexample :
    fileAlreadyExists "foo" ["foo__abc123.glb"] = true ∧
    Action.register ∈
      (FindItems.downloadGlbFile "foo" ["foo__abc123.glb"]
        { navOk := true, nav2Ok := true, responses := [], fetchOk := fun _ => false }).actions ∧
    Action.navigate ∈
      (FindItems.downloadGlbFile "foo" ["foo__abc123.glb"]
        { navOk := true, nav2Ok := true, responses := [], fetchOk := fun _ => false }).actions := by
  refine ⟨by decide, ?_, ?_⟩ <;> decide

/-- C1 (amended): in the `index.js` pipeline the dedup check is decisive —
whenever the destination directory already holds a file named
`<slug>__…​.glb`, the per-icon step performs no action at all (no listener
registration, no navigation, no fetch) and leaves the mapping, the written
set and the fetch log unchanged.  The `find-items.js` pipeline has no such
check (see the counterexample). -/
theorem C1_theorem (slug packDir : String) (dirFiles : List String)
    (env : IndexJs.IconEnv) (st : IndexJs.St)
    (h : fileAlreadyExists slug dirFiles = true) :
    (IndexJs.processIcon slug packDir dirFiles env st).actions = [] ∧
    (IndexJs.processIcon slug packDir dirFiles env st).st = st ∧
    (IndexJs.processIcon slug packDir dirFiles env st).skipped = true := by
  rw [IndexJs.processIcon, if_pos h]
  exact ⟨rfl, rfl, rfl⟩

/-- C1 witness: the amended dedup property at a concrete input. -/
theorem C1_witness :
    fileAlreadyExists "foo" ["foo__abc123.glb"] = true ∧
    ((IndexJs.processIcon "foo" "packA" ["foo__abc123.glb"]
        { navOk := true, responses := [], fetchOk := fun _ => false }
        { mapping := [], written := [], fetches := [] }).actions = [] ∧
      (IndexJs.processIcon "foo" "packA" ["foo__abc123.glb"]
        { navOk := true, responses := [], fetchOk := fun _ => false }
        { mapping := [], written := [], fetches := [] }).st =
        { mapping := [], written := [], fetches := [] } ∧
      (IndexJs.processIcon "foo" "packA" ["foo__abc123.glb"]
        { navOk := true, responses := [], fetchOk := fun _ => false }
        { mapping := [], written := [], fetches := [] }).skipped = true) :=
  ⟨by decide,
    C1_theorem "foo" "packA" ["foo__abc123.glb"]
      { navOk := true, responses := [], fetchOk := fun _ => false }
      { mapping := [], written := [], fetches := [] } (by decide)⟩

/-- C2: on every resolution path of both pipelines, the first listener
registration strictly precedes the first navigation of the step's action
trace (vacuously so for the skip path, which performs neither). -/
theorem C2_theorem :
    (∀ (slug packDir : String) (dirFiles : List String)
        (env : IndexJs.IconEnv) (st : IndexJs.St),
      regBeforeNav (IndexJs.processIcon slug packDir dirFiles env st).actions = true) ∧
    (∀ (slug : String) (dirFiles : List String) (env : FindItems.Env),
      regBeforeNav (FindItems.downloadGlbFile slug dirFiles env).actions = true) := by
  constructor
  · intro slug packDir dirFiles env st
    rw [IndexJs.processIcon]
    split
    · rfl
    · split <;> rfl
  · intro slug dirFiles env
    rw [FindItems.downloadGlbFile]
    split
    · rfl
    · split
      · split <;> rfl
      · rfl

/-- C3 counterexample: a navigation timeout skips the
`page.removeListener` call, so the listener registered for the item is
*not* deregistered before the step returns; two such items leave two
listeners registered at once, refuting both the always-deregistered claim
and the at-most-one-live-listener claim. -/
theorem C3_counterexample :
    (IndexJs.processIcon "foo" "packA" []
      { navOk := false, responses := [], fetchOk := fun _ => false }
      { mapping := [], written := [], fetches := [] }).listenerRemoved = false ∧
    IndexJs.runLeakedListeners
      [{ slug := "foo", packDir := "packA", dirFiles := []
         env := { navOk := false, responses := [], fetchOk := fun _ => false } },
       { slug := "bar", packDir := "packA", dirFiles := []
         env := { navOk := false, responses := [], fetchOk := fun _ => false } }]
      { mapping := [], written := [], fetches := [] } = 2 ∧
    (FindItems.downloadGlbFile "foo" []
      { navOk := false, nav2Ok := true, responses := [], fetchOk := fun _ => false }).listenerRemoved
      = false := by
  refine ⟨?_, ?_, ?_⟩ <;> decide

/-- C3 (amended): the response listener is deregistered before the
resolution step returns on every *non-throwing* path — in `index.js`
whenever the navigation and wait complete, and in `find-items.js` whenever
both navigation waits complete (including when no presigned URL was
captured and when the binary fetch fails).  When navigation throws, the
per-item `catch` skips deregistration and the listener leaks into the
following items. -/
theorem C3_theorem :
    (∀ (slug packDir : String) (dirFiles : List String)
        (env : IndexJs.IconEnv) (st : IndexJs.St), env.navOk = true →
      (IndexJs.processIcon slug packDir dirFiles env st).listenerRemoved = true) ∧
    (∀ (slug : String) (dirFiles : List String) (env : FindItems.Env),
      env.navOk = true → env.nav2Ok = true →
      (FindItems.downloadGlbFile slug dirFiles env).listenerRemoved = true) := by
  constructor
  · intro slug packDir dirFiles env st h
    rw [IndexJs.processIcon, h]
    split <;> rfl
  · intro slug dirFiles env h1 h2
    rw [FindItems.downloadGlbFile, h1, h2]
    split
    · next hc => exact absurd hc (by decide)
    · split
      · split <;> rfl
      · rfl

/-- C3 witness: the amended deregistration property at concrete inputs. -/
theorem C3_witness :
    (IndexJs.processIcon "foo" "packA" []
      { navOk := true, responses := [], fetchOk := fun _ => false }
      { mapping := [], written := [], fetches := [] }).listenerRemoved = true ∧
    (FindItems.downloadGlbFile "foo" []
      { navOk := true, nav2Ok := true, responses := [], fetchOk := fun _ => false }).listenerRemoved
      = true :=
  ⟨C3_theorem.1 "foo" "packA" []
      { navOk := true, responses := [], fetchOk := fun _ => false }
      { mapping := [], written := [], fetches := [] } rfl,
    C3_theorem.2 "foo" []
      { navOk := true, nav2Ok := true, responses := [], fetchOk := fun _ => false } rfl rfl⟩

/-- C4 counterexample: in `index.js`, the slug→uuid mapping entry is
recorded *before* the binary fetch is attempted, so when the fetch of the
signed URL fails, no file is written but the mapping has nevertheless
gained the entry `foo → abc123` — the claim's "no entry for its slug is
added" is false. -/
theorem C4_counterexample :
    (IndexJs.responseHandler "foo" "packA" (fun _ => false)
      { mapping := [], written := [], fetches := [] }
      { url := "https://pixcap.com/api/v1/assetmanager/presigned/loadProject/abc123?lang=en"
        body := some { presignedUrl := some "https://cdn.example/x"
                       contentType := some "model/gltf-binary" } }).written = [] ∧
    (IndexJs.responseHandler "foo" "packA" (fun _ => false)
      { mapping := [], written := [], fetches := [] }
      { url := "https://pixcap.com/api/v1/assetmanager/presigned/loadProject/abc123?lang=en"
        body := some { presignedUrl := some "https://cdn.example/x"
                       contentType := some "model/gltf-binary" } }).fetches =
      ["https://cdn.example/x"] ∧
    (IndexJs.responseHandler "foo" "packA" (fun _ => false)
      { mapping := [], written := [], fetches := [] }
      { url := "https://pixcap.com/api/v1/assetmanager/presigned/loadProject/abc123?lang=en"
        body := some { presignedUrl := some "https://cdn.example/x"
                       contentType := some "model/gltf-binary" } }).mapping =
      [("foo", "abc123")] ∧
    (IndexJs.responseHandler "foo" "packA" (fun _ => false)
      { mapping := [], written := [], fetches := [] }
      { url := "https://pixcap.com/api/v1/assetmanager/presigned/loadProject/abc123?lang=en"
        body := some { presignedUrl := some "https://cdn.example/x"
                       contentType := some "model/gltf-binary" } }).mapping ≠ [] := by
  refine ⟨?_, ?_, ?_, ?_⟩ <;> decide

/-- C4 (amended): a failed binary fetch writes no file in either variant,
and in the `part_000` variant it also leaves the disk (files and mapping
file) entirely unchanged; in `index.js`, however, the fetch is attempted
only after `slugToUuidMap.set(iconSlug, iconUuid)` has run, so the mapping
holds the entry even though the download failed. -/
theorem C4_theorem :
    (∀ (slug packDir : String) (fetchOk : String → Bool) (st : IndexJs.St)
        (r : NetResponse) (b : RespBody) (u : String),
      matchesEndpoint r.url = true → r.body = some b →
      truthy b.presignedUrl = some u → fetchOk u = false →
      (IndexJs.responseHandler slug packDir fetchOk st r).written = st.written ∧
      (IndexJs.responseHandler slug packDir fetchOk st r).mapping =
        mapSet st.mapping slug (uuidOfUrl r.url) ∧
      (IndexJs.responseHandler slug packDir fetchOk st r).fetches = st.fetches ++ [u]) ∧
    (∀ (itemSlug itemUuid : String) (disk : Part000.Disk),
      Part000.downloadGlbFile itemSlug itemUuid false disk = disk) := by
  constructor
  · intro slug packDir fetchOk st r b u hm hb ht hf
    simp [IndexJs.responseHandler, hm, hb, ht, hf]
  · intro itemSlug itemUuid disk
    rfl

/-- C4 witness: the amended failed-fetch property at concrete inputs. -/
theorem C4_witness :
    ((IndexJs.responseHandler "bar" "packB" (fun _ => false)
        { mapping := [("old", "o1")], written := [], fetches := [] }
        { url := "https://pixcap.com/api/v1/assetmanager/presigned/loadProject/def456?lang=en"
          body := some { presignedUrl := some "https://cdn.example/y"
                         contentType := some "model/gltf-binary" } }).written = [] ∧
      (IndexJs.responseHandler "bar" "packB" (fun _ => false)
        { mapping := [("old", "o1")], written := [], fetches := [] }
        { url := "https://pixcap.com/api/v1/assetmanager/presigned/loadProject/def456?lang=en"
          body := some { presignedUrl := some "https://cdn.example/y"
                         contentType := some "model/gltf-binary" } }).mapping =
        mapSet [("old", "o1")] "bar"
          (uuidOfUrl "https://pixcap.com/api/v1/assetmanager/presigned/loadProject/def456?lang=en") ∧
      (IndexJs.responseHandler "bar" "packB" (fun _ => false)
        { mapping := [("old", "o1")], written := [], fetches := [] }
        { url := "https://pixcap.com/api/v1/assetmanager/presigned/loadProject/def456?lang=en"
          body := some { presignedUrl := some "https://cdn.example/y"
                         contentType := some "model/gltf-binary" } }).fetches =
        [] ++ ["https://cdn.example/y"]) ∧
    Part000.downloadGlbFile "bar" "def456" false { files := [], mapFile := .missing } =
      { files := [], mapFile := .missing } :=
  ⟨C4_theorem.1 "bar" "packB" (fun _ => false)
      { mapping := [("old", "o1")], written := [], fetches := [] }
      { url := "https://pixcap.com/api/v1/assetmanager/presigned/loadProject/def456?lang=en"
        body := some { presignedUrl := some "https://cdn.example/y"
                       contentType := some "model/gltf-binary" } }
      { presignedUrl := some "https://cdn.example/y", contentType := some "model/gltf-binary" }
      "https://cdn.example/y" (by decide) rfl rfl rfl,
    C4_theorem.2 "bar" "def456" { files := [], mapFile := .missing }⟩

/-- C5 counterexample: the claim fails on `find-items.js`.  The intercepted
resolution response's URL carries the identifier `abc123` and its body the
signed URL, and the fetch succeeds — yet the file written is `foo.glb`, not
`foo__abc123.glb` (the variant's listener discards the identifier), and the
variant tracks no slug→identifier mapping at all. -/
theorem C5_counterexample :
    uuidOfUrl "https://pixcap.com/api/v1/assetmanager/presigned/loadProject/abc123?lang=en" =
      "abc123" ∧
    (FindItems.downloadGlbFile "foo" []
      { navOk := true, nav2Ok := true
        responses := [{ url := "https://pixcap.com/api/v1/assetmanager/presigned/loadProject/abc123?lang=en"
                        body := some { presignedUrl := some "https://cdn.example/x"
                                       contentType := some "model/gltf-binary" } }]
        fetchOk := fun _ => true }).success = true ∧
    (FindItems.downloadGlbFile "foo" []
      { navOk := true, nav2Ok := true
        responses := [{ url := "https://pixcap.com/api/v1/assetmanager/presigned/loadProject/abc123?lang=en"
                        body := some { presignedUrl := some "https://cdn.example/x"
                                       contentType := some "model/gltf-binary" } }]
        fetchOk := fun _ => true }).written = ["foo.glb"] ∧
    "foo__abc123.glb" ∉
      (FindItems.downloadGlbFile "foo" []
        { navOk := true, nav2Ok := true
          responses := [{ url := "https://pixcap.com/api/v1/assetmanager/presigned/loadProject/abc123?lang=en"
                          body := some { presignedUrl := some "https://cdn.example/x"
                                         contentType := some "model/gltf-binary" } }]
          fetchOk := fun _ => true }).written := by
  refine ⟨?_, ?_, ?_, ?_⟩ <;> decide

/-- C5 (amended): in `index.js` (where `id` is derived from the matched
response URL) and in the `part_000` variant, a successful resolution+fetch
writes the file named exactly `s__id.glb` inside the collection directory
and the mapping afterwards contains `s → id`.  The `find-items.js` variant
instead writes `s.glb` on its success path — its listener captures only the
presigned URL, no identifier enters the filename, and it maintains no
slug→identifier mapping. -/
theorem C5_theorem :
    (∀ (slug packDir id u : String) (fetchOk : String → Bool) (st : IndexJs.St)
        (r : NetResponse) (b : RespBody),
      matchesEndpoint r.url = true → r.body = some b →
      truthy b.presignedUrl = some u → uuidOfUrl r.url = id → fetchOk u = true →
      (packDir, slug ++ "__" ++ id ++ ".glb") ∈
        (IndexJs.responseHandler slug packDir fetchOk st r).written ∧
      mapGet (IndexJs.responseHandler slug packDir fetchOk st r).mapping slug = some id) ∧
    (∀ (slug id : String) (disk : Part000.Disk),
      (slug ++ "__" ++ id ++ ".glb") ∈ (Part000.downloadGlbFile slug id true disk).files ∧
      ∃ m, (Part000.downloadGlbFile slug id true disk).mapFile = Part000.MapFile.good m ∧
        mapGet m slug = some id) ∧
    (∀ (slug : String) (dirFiles : List String) (env : FindItems.Env) (u : String),
      env.navOk = true → env.nav2Ok = true →
      env.responses.foldl FindItems.handleResponse none = some u →
      env.fetchOk u = true →
      (FindItems.downloadGlbFile slug dirFiles env).success = true ∧
      (FindItems.downloadGlbFile slug dirFiles env).written = [slug ++ ".glb"]) := by
  refine ⟨?_, ?_, ?_⟩
  · intro slug packDir id u fetchOk st r b hm hb ht hid hf
    simp only [IndexJs.responseHandler, hm, hb, ht, hid, hf, if_true]
    exact ⟨by simp, mapGet_mapSet_self st.mapping slug id⟩
  · intro slug id disk
    refine ⟨by simp [Part000.downloadGlbFile], ?_⟩
    exact ⟨mapSet (Part000.readMappings disk.mapFile) slug id, rfl,
      mapGet_mapSet_self _ slug id⟩
  · intro slug dirFiles env u h1 h2 hcap hf
    rw [FindItems.downloadGlbFile, h1, h2, hcap]
    simp [hf]

/-- C5 witness: the success-path naming and mapping property at concrete
inputs. -/
theorem C5_witness :
    (("packA", "foo__abc123.glb") ∈
        (IndexJs.responseHandler "foo" "packA" (fun _ => true)
          { mapping := [], written := [], fetches := [] }
          { url := "https://pixcap.com/api/v1/assetmanager/presigned/loadProject/abc123?lang=en"
            body := some { presignedUrl := some "https://cdn.example/x"
                           contentType := some "model/gltf-binary" } }).written ∧
      mapGet (IndexJs.responseHandler "foo" "packA" (fun _ => true)
          { mapping := [], written := [], fetches := [] }
          { url := "https://pixcap.com/api/v1/assetmanager/presigned/loadProject/abc123?lang=en"
            body := some { presignedUrl := some "https://cdn.example/x"
                           contentType := some "model/gltf-binary" } }).mapping "foo" =
        some "abc123") ∧
    ("foo__abc123.glb" ∈
        (Part000.downloadGlbFile "foo" "abc123" true { files := [], mapFile := .missing }).files ∧
      ∃ m, (Part000.downloadGlbFile "foo" "abc123" true
          { files := [], mapFile := .missing }).mapFile = Part000.MapFile.good m ∧
        mapGet m "foo" = some "abc123") ∧
    ((FindItems.downloadGlbFile "bar" []
        { navOk := true, nav2Ok := true
          responses := [{ url := "https://pixcap.com/api/v1/assetmanager/presigned/loadProject/def456?lang=en"
                          body := some { presignedUrl := some "https://cdn.example/y"
                                         contentType := some "model/gltf-binary" } }]
          fetchOk := fun _ => true }).success = true ∧
      (FindItems.downloadGlbFile "bar" []
        { navOk := true, nav2Ok := true
          responses := [{ url := "https://pixcap.com/api/v1/assetmanager/presigned/loadProject/def456?lang=en"
                          body := some { presignedUrl := some "https://cdn.example/y"
                                         contentType := some "model/gltf-binary" } }]
          fetchOk := fun _ => true }).written = ["bar" ++ ".glb"]) :=
  ⟨C5_theorem.1 "foo" "packA" "abc123" "https://cdn.example/x" (fun _ => true)
      { mapping := [], written := [], fetches := [] }
      { url := "https://pixcap.com/api/v1/assetmanager/presigned/loadProject/abc123?lang=en"
        body := some { presignedUrl := some "https://cdn.example/x"
                       contentType := some "model/gltf-binary" } }
      { presignedUrl := some "https://cdn.example/x", contentType := some "model/gltf-binary" }
      (by decide) rfl rfl (by decide) rfl,
    C5_theorem.2.1 "foo" "abc123" { files := [], mapFile := .missing },
    C5_theorem.2.2 "bar" []
      { navOk := true, nav2Ok := true
        responses := [{ url := "https://pixcap.com/api/v1/assetmanager/presigned/loadProject/def456?lang=en"
                        body := some { presignedUrl := some "https://cdn.example/y"
                                       contentType := some "model/gltf-binary" } }]
        fetchOk := fun _ => true } "https://cdn.example/y" rfl rfl (by decide) rfl⟩

/-- C6 counterexample: an `index.js` run that successfully stores two icons
emits both file writes and then a *single* write of the on-disk mapping
file, at the end of the run — between the first successful store and the
second there is no mapping-file write at all, so the on-disk mapping is not
updated immediately after each successful store and a crash mid-run loses
the whole run's mapping, not just the in-flight item. -/
theorem C6_counterexample :
    IndexJs.runEvents
      [{ slug := "foo", packDir := "p", dirFiles := []
         env := { navOk := true
                  responses := [{ url := "https://pixcap.com/api/v1/assetmanager/presigned/loadProject/abc123?lang=en"
                                  body := some { presignedUrl := some "https://cdn.example/x"
                                                 contentType := some "model/gltf-binary" } }]
                  fetchOk := fun _ => true } },
       { slug := "bar", packDir := "p", dirFiles := []
         env := { navOk := true
                  responses := [{ url := "https://pixcap.com/api/v1/assetmanager/presigned/loadProject/def456?lang=en"
                                  body := some { presignedUrl := some "https://cdn.example/y"
                                                 contentType := some "model/gltf-binary" } }]
                  fetchOk := fun _ => true } }]
      { mapping := [], written := [], fetches := [] } =
      [IndexJs.Event.fileWrite "p" "foo__abc123.glb",
       IndexJs.Event.fileWrite "p" "bar__def456.glb",
       IndexJs.Event.diskMapWrite [("foo", "abc123"), ("bar", "def456")]] := by
  decide

/-- C6 (amended): the immediate-persistence claim holds for the `part_000`
variant — each successful store writes the file and, within the same call,
rewrites the on-disk mapping file to hold the new entry together with every
previously stored entry under a different slug.  In `index.js` the on-disk
mapping is written exactly once, after the whole loop, with the end-of-run
mapping (the loop itself emits only file writes), so a crash mid-run loses
every mapping entry of that run. -/
theorem C6_theorem :
    (∀ (slug uuid : String) (m : List (String × String)) (files : List String),
      (Part000.downloadGlbFile slug uuid true { files := files, mapFile := .good m }).mapFile =
        Part000.MapFile.good (mapSet m slug uuid) ∧
      mapGet (mapSet m slug uuid) slug = some uuid ∧
      (∀ k, k ≠ slug → mapGet (mapSet m slug uuid) k = mapGet m k)) ∧
    (∀ (items : List IndexJs.RunItem) (st : IndexJs.St),
      ∃ pre, IndexJs.runEvents items st =
          pre ++ [IndexJs.Event.diskMapWrite (IndexJs.runSt items st).mapping] ∧
        pre.all (fun e => !e.isDiskMapWrite) = true) := by
  constructor
  · intro slug uuid m files
    exact ⟨rfl, mapGet_mapSet_self m slug uuid,
      fun k hk => mapGet_mapSet_ne m slug uuid k hk⟩
  · exact IndexJs.runEvents_structure

/-- C6 witness: the amended persistence property at concrete inputs,
including preservation of a previously stored entry under another slug. -/
theorem C6_witness :
    (Part000.downloadGlbFile "foo" "abc123" true
        { files := [], mapFile := .good [("bar", "def456")] }).mapFile =
      Part000.MapFile.good [("bar", "def456"), ("foo", "abc123")] ∧
    mapGet [("bar", "def456"), ("foo", "abc123")] "bar" = mapGet [("bar", "def456")] "bar" := by
  have h := C6_theorem.1 "foo" "abc123" [("bar", "def456")] []
  have h2 := h.2.2 "bar" (by decide)
  have h3 : mapGet [("bar", "def456"), ("foo", "abc123")] "bar" =
      mapGet (mapSet [("bar", "def456")] "foo" "abc123") "bar" := by decide
  exact ⟨h.1.trans (by decide), h3.trans h2⟩

/-- C7: for every pack page, the set of item references returned by
`getItemUrls` equals the union of the four heuristics' outputs (direct
`/item/` anchor scan, component-scoped anchor scan, card/thumbnail anchor
scan, library-tag scan), normalised to path form — deduplication changes
the order and multiplicity only, never the set. -/
theorem C7_theorem (d : FindItems.ItemDom) :
    (FindItems.getItemUrls d).toFinset =
      ((FindItems.scanForItemLinks d.itemAnchors).toFinset ∪
        (FindItems.scanForItemLinks d.componentAnchors).toFinset ∪
        (FindItems.scanForItemLinks d.cardAnchors).toFinset ∪
        (FindItems.scanForItemLinks d.libraryTags).toFinset).image FindItems.pathnameOf := by
  ext a
  simp only [FindItems.getItemUrls, List.mem_toFinset, List.mem_map, mem_firstDedup,
    List.mem_append, Finset.mem_image, Finset.mem_union]

/-- C8 counterexample: on a pack page whose state blob is absent and whose
anchors carry no `slug=` parameter but whose image does carry a slug
pattern, the found-packs extractor of `index.js` returns nothing — the
claimed third (image) fallback layer does not exist in it. -/
theorem C8_counterexample :
    Extract.extractIconSlugsA
      { nuxtItems := none, createAnchorHrefs := []
        imgs := [{ src := "/rocket-3d-icon.png", alt := "" }] } = [] ∧
    Extract.layeredExtractClaim
      { nuxtItems := none, createAnchorHrefs := []
        imgs := [{ src := "/rocket-3d-icon.png", alt := "" }] } = ["rocket"] ∧
    Extract.extractIconSlugsA
      { nuxtItems := none, createAnchorHrefs := []
        imgs := [{ src := "/rocket-3d-icon.png", alt := "" }] } ≠
      Extract.layeredExtractClaim
        { nuxtItems := none, createAnchorHrefs := []
          imgs := [{ src := "/rocket-3d-icon.png", alt := "" }] } := by
  refine ⟨?_, ?_, ?_⟩ <;> decide

/-- C8 (amended): item-level slug extraction is split across two branches,
neither of which is the claimed three-layer fallback.  The found-packs
branch runs the state-blob layer with a single fallback to the `slug=`
anchors and never consults images (it agrees with the claim's three-layer
extractor exactly when the blob or the anchor layer yields something, or
the image layer would find nothing).  The hardcoded-packs branch runs
`slug=` anchors, then `data-slug`/`data-icon-slug` attributes, then the
image scan, with no blob layer. -/
theorem C8_theorem :
    (∀ p : Extract.PackPageA, p.nuxtItems.getD [] ≠ [] →
      Extract.extractIconSlugsA p = p.nuxtItems.getD []) ∧
    (∀ p : Extract.PackPageA, p.nuxtItems.getD [] = [] →
      Extract.extractIconSlugsA p = p.createAnchorHrefs.filterMap Extract.slugParam?) ∧
    (∀ (p : Extract.PackPageA) (imgs1 imgs2 : List Extract.Img),
      Extract.extractIconSlugsA { p with imgs := imgs1 } =
        Extract.extractIconSlugsA { p with imgs := imgs2 }) ∧
    (∀ p : Extract.PackPageB, p.createAnchorHrefs ≠ [] →
      Extract.extractIconSlugsB p = p.createAnchorHrefs.filterMap Extract.slugParam?) ∧
    (∀ p : Extract.PackPageB, p.createAnchorHrefs = [] → p.dataCards ≠ [] →
      Extract.extractIconSlugsB p = p.dataCards.filterMap Extract.cardSlug?) ∧
    (∀ p : Extract.PackPageB, p.createAnchorHrefs = [] → p.dataCards = [] →
      Extract.extractIconSlugsB p = Extract.imageLayer p.imgs) ∧
    (∀ p : Extract.PackPageA,
      Extract.extractIconSlugsA p = Extract.layeredExtractClaim p ↔
        (p.nuxtItems.getD [] ≠ [] ∨
          p.createAnchorHrefs.filterMap Extract.slugParam? ≠ [] ∨
          Extract.imageLayer p.imgs = [])) := by
  refine ⟨?_, ?_, ?_, ?_, ?_, ?_, ?_⟩
  · intro p h
    simp [Extract.extractIconSlugsA, isEmpty_eq_false _ h]
  · intro p h
    simp [Extract.extractIconSlugsA, h]
  · intro p imgs1 imgs2
    rfl
  · intro p h
    simp [Extract.extractIconSlugsB, isEmpty_eq_false _ h]
  · intro p h1 h2
    simp [Extract.extractIconSlugsB, h1, isEmpty_eq_false _ h2]
  · intro p h1 h2
    simp [Extract.extractIconSlugsB, h1, h2]
  · intro p
    by_cases hb : p.nuxtItems.getD [] = []
    · by_cases ha : p.createAnchorHrefs.filterMap Extract.slugParam? = []
      · by_cases hi : Extract.imageLayer p.imgs = []
        · simp [Extract.extractIconSlugsA, Extract.layeredExtractClaim, hb, ha, hi]
        · have hi' : ¬([] = Extract.imageLayer p.imgs) := fun e => hi e.symm
          simp [Extract.extractIconSlugsA, Extract.layeredExtractClaim, hb, ha, hi, hi']
      · simp [Extract.extractIconSlugsA, Extract.layeredExtractClaim, hb, ha,
          isEmpty_eq_false _ ha]
    · simp [Extract.extractIconSlugsA, Extract.layeredExtractClaim, hb,
        isEmpty_eq_false _ hb]

/-- C8 witness: the amended two-branch layering at concrete pages. -/
theorem C8_witness :
    Extract.extractIconSlugsA
      { nuxtItems := some ["s1"], createAnchorHrefs := ["/design/create?slug=s2"], imgs := [] } =
      ["s1"] ∧
    Extract.extractIconSlugsA
      { nuxtItems := none, createAnchorHrefs := ["/design/create?slug=s2"], imgs := [] } =
      List.filterMap Extract.slugParam? ["/design/create?slug=s2"] ∧
    Extract.extractIconSlugsB
      { createAnchorHrefs := ["/design/create?slug=s2"], dataCards := [], imgs := [] } =
      List.filterMap Extract.slugParam? ["/design/create?slug=s2"] ∧
    Extract.extractIconSlugsB
      { createAnchorHrefs := [], dataCards := [{ dataSlug := some "s3", dataIconSlug := none }]
        imgs := [] } =
      List.filterMap Extract.cardSlug? [{ dataSlug := some "s3", dataIconSlug := none }] ∧
    Extract.extractIconSlugsB
      { createAnchorHrefs := [], dataCards := []
        imgs := [{ src := "/rocket-3d-icon.png", alt := "" }] } =
      Extract.imageLayer [{ src := "/rocket-3d-icon.png", alt := "" }] ∧
    (Extract.extractIconSlugsA
        { nuxtItems := some ["s1"], createAnchorHrefs := [], imgs := [] } =
      Extract.layeredExtractClaim
        { nuxtItems := some ["s1"], createAnchorHrefs := [], imgs := [] }) :=
  ⟨C8_theorem.1 { nuxtItems := some ["s1"], createAnchorHrefs := ["/design/create?slug=s2"], imgs := [] }
      (by decide),
    C8_theorem.2.1 { nuxtItems := none, createAnchorHrefs := ["/design/create?slug=s2"], imgs := [] }
      rfl,
    C8_theorem.2.2.2.1 { createAnchorHrefs := ["/design/create?slug=s2"], dataCards := [], imgs := [] }
      (by decide),
    C8_theorem.2.2.2.2.1
      { createAnchorHrefs := [], dataCards := [{ dataSlug := some "s3", dataIconSlug := none }]
        imgs := [] } rfl (by decide),
    C8_theorem.2.2.2.2.2.1
      { createAnchorHrefs := [], dataCards := []
        imgs := [{ src := "/rocket-3d-icon.png", alt := "" }] } rfl rfl,
    (C8_theorem.2.2.2.2.2.2 { nuxtItems := some ["s1"], createAnchorHrefs := [], imgs := [] }).mpr
      (Or.inl (by decide))⟩

/-- C9: the pagination crawl accumulates collection references unique by
path in discovery order (the already-collected list is always a prefix of
the result), continues exactly when an enabled next control is found,
clicking it succeeds and the navigation wait settles, and stops — keeping
everything collected so far — the first time any of the three fails. -/
theorem C9_theorem :
    (∀ (hrefs : List String) (steps : List FindItems.PageStep),
      (FindItems.crawl (FindItems.getPackUrls hrefs) steps).Nodup) ∧
    (∀ (acc : List String) (steps : List FindItems.PageStep),
      acc <+: FindItems.crawl acc steps) ∧
    (∀ (acc : List String) (s : FindItems.PageStep) (rest : List FindItems.PageStep),
      (s.hasNext && s.clickOk && s.navOk) = true →
      FindItems.crawl acc (s :: rest) = FindItems.crawl (addUnique acc s.urls) rest) ∧
    (∀ (acc : List String) (s : FindItems.PageStep) (rest : List FindItems.PageStep),
      (s.hasNext && s.clickOk && s.navOk) = false →
      FindItems.crawl acc (s :: rest) = acc) := by
  refine ⟨?_, ?_, ?_, ?_⟩
  · intro hrefs steps
    refine FindItems.nodup_crawl steps _ ?_
    rw [FindItems.getPackUrls]
    exact nodup_firstDedup _
  · intro acc steps
    exact FindItems.prefix_crawl steps acc
  · intro acc s rest h
    rw [FindItems.crawl, if_pos h]
  · intro acc s rest h
    rw [FindItems.crawl, if_neg (by simp [h])]

/-- C9 witness: the crawl contract at a concrete three-page catalog whose
last page has no next control. -/
theorem C9_witness :
    (FindItems.crawl (FindItems.getPackUrls ["https://pixcap.com/pack/a", "/pack/b"])
      [{ hasNext := true, clickOk := true, navOk := true, urls := ["/pack/b", "/pack/c"] },
       { hasNext := false, clickOk := false, navOk := false, urls := [] }]).Nodup ∧
    FindItems.getPackUrls ["https://pixcap.com/pack/a", "/pack/b"] <+:
      FindItems.crawl (FindItems.getPackUrls ["https://pixcap.com/pack/a", "/pack/b"])
        [{ hasNext := true, clickOk := true, navOk := true, urls := ["/pack/b", "/pack/c"] },
         { hasNext := false, clickOk := false, navOk := false, urls := [] }] ∧
    FindItems.crawl ["/pack/a", "/pack/b"]
      [{ hasNext := true, clickOk := true, navOk := true, urls := ["/pack/b", "/pack/c"] }] =
      FindItems.crawl (addUnique ["/pack/a", "/pack/b"] ["/pack/b", "/pack/c"]) [] ∧
    FindItems.crawl ["/pack/a", "/pack/b", "/pack/c"]
      [{ hasNext := false, clickOk := false, navOk := false, urls := [] }] =
      ["/pack/a", "/pack/b", "/pack/c"] :=
  ⟨C9_theorem.1 ["https://pixcap.com/pack/a", "/pack/b"]
      [{ hasNext := true, clickOk := true, navOk := true, urls := ["/pack/b", "/pack/c"] },
       { hasNext := false, clickOk := false, navOk := false, urls := [] }],
    C9_theorem.2.1 (FindItems.getPackUrls ["https://pixcap.com/pack/a", "/pack/b"])
      [{ hasNext := true, clickOk := true, navOk := true, urls := ["/pack/b", "/pack/c"] },
       { hasNext := false, clickOk := false, navOk := false, urls := [] }],
    C9_theorem.2.2.1 ["/pack/a", "/pack/b"]
      { hasNext := true, clickOk := true, navOk := true, urls := ["/pack/b", "/pack/c"] } []
      rfl,
    C9_theorem.2.2.2 ["/pack/a", "/pack/b", "/pack/c"]
      { hasNext := false, clickOk := false, navOk := false, urls := [] } [] rfl⟩

/-- C10: the combined pipeline's response listener changes the captured
value only for a response matching the endpoint pattern whose body parses
with a truthy `presignedUrl` *and* `contentType` exactly
`model/gltf-binary` (in which case it captures that presigned URL); and
when the waits settle but every intercepted response fails the
`contentType` test — even ones carrying a valid signed URL — nothing is
captured, nothing is written, and the item is reported as a failed
download. -/
theorem C10_theorem :
    (∀ (st : Option String) (r : NetResponse),
      FindItems.handleResponse st r ≠ st →
      matchesEndpoint r.url = true ∧
      ∃ b u, r.body = some b ∧ truthy b.presignedUrl = some u ∧
        b.contentType = some "model/gltf-binary" ∧
        FindItems.handleResponse st r = some u) ∧
    (∀ (slug : String) (dirFiles : List String) (env : FindItems.Env),
      env.navOk = true → env.nav2Ok = true →
      env.responses.all FindItems.notGltf = true →
      (FindItems.downloadGlbFile slug dirFiles env).success = false ∧
      (FindItems.downloadGlbFile slug dirFiles env).written = []) := by
  constructor
  · intro st r h
    obtain ⟨url, body⟩ := r
    by_cases hm : matchesEndpoint url = true
    · refine ⟨hm, ?_⟩
      cases body with
      | none => exact absurd (by simp [FindItems.handleResponse]) h
      | some b =>
        cases ht : truthy b.presignedUrl with
        | none => exact absurd (by simp [FindItems.handleResponse, ht]) h
        | some u =>
          by_cases hct : b.contentType = some "model/gltf-binary"
          · exact ⟨b, u, rfl, ht, hct, by simp [FindItems.handleResponse, hm, ht, hct]⟩
          · exact absurd (by simp [FindItems.handleResponse, ht, hct]) h
    · exact absurd (by simp [FindItems.handleResponse, hm]) h
  · intro slug dirFiles env h1 h2 hall
    rw [FindItems.downloadGlbFile, h1, h2,
      FindItems.foldl_handleResponse_no_gltf env.responses none hall]
    exact ⟨rfl, rfl⟩

/-- C10 witness: the acceptance filter and the wrong-contentType drop at
concrete inputs. -/
theorem C10_witness :
    matchesEndpoint "https://pixcap.com/api/v1/assetmanager/presigned/loadProject/abc?lang=en" = true ∧
    (FindItems.downloadGlbFile "foo" []
      { navOk := true, nav2Ok := true
        responses := [{ url := "https://pixcap.com/api/v1/assetmanager/presigned/loadProject/abc?lang=en"
                        body := some { presignedUrl := some "https://cdn.example/x"
                                       contentType := some "application/octet-stream" } }]
        fetchOk := fun _ => true }).success = false ∧
    (FindItems.downloadGlbFile "foo" []
      { navOk := true, nav2Ok := true
        responses := [{ url := "https://pixcap.com/api/v1/assetmanager/presigned/loadProject/abc?lang=en"
                        body := some { presignedUrl := some "https://cdn.example/x"
                                       contentType := some "application/octet-stream" } }]
        fetchOk := fun _ => true }).written = [] := by
  have h1 := (C10_theorem.1 none
    { url := "https://pixcap.com/api/v1/assetmanager/presigned/loadProject/abc?lang=en"
      body := some { presignedUrl := some "https://cdn.example/x"
                     contentType := some "model/gltf-binary" } } (by decide)).1
  have h2 := C10_theorem.2 "foo" []
    { navOk := true, nav2Ok := true
      responses := [{ url := "https://pixcap.com/api/v1/assetmanager/presigned/loadProject/abc?lang=en"
                      body := some { presignedUrl := some "https://cdn.example/x"
                                     contentType := some "application/octet-stream" } }]
      fetchOk := fun _ => true } rfl rfl (by decide)
  exact ⟨h1, h2.1, h2.2⟩
